import Mathlib

/-!
Verification of the keyteki purge action and select-card prompt.

The definitions below are a shallow embedding of two source files:
`PurgeAction` (the purge game action) and `SelectCardPrompt` (the interactive
multi-card selection prompt). Cards and players are identified by natural
numbers; mutable JS object state becomes explicit state records; JS callbacks
become function-valued fields. Code of the repository that the source files
call but that is not part of them (`Player.moveCard`, `game.raiseEvent`) is
modelled from the specification, as marked in the corresponding doc comments.

The file is laid out with all definitions first and all theorems after them.
-/

namespace Keyteki

namespace Purge

/-- The card fields touched by the purge action. Cards are identified by a
natural-number id; `composedPart` and `purgedBy` hold ids. -/
structure PCard where
  location : String
  gigantic : Bool
  composedPart : Option Nat
  purgedBy : Option Nat
deriving DecidableEq

/-- Game state as seen by the purge action: the cards, each player's list of
cards they have caused to be purged, and an instrumentation log of the names
of the events raised so far, in order. -/
structure GState where
  cards : Nat → PCard
  purgedCards : Nat → List Nat
  raisedEvents : List String

/-- Modelled from the spec: `Player.moveCard` is not under src/. Section 4.1
says the mutation relocates the card via the ownership-transfer primitive, and
the glossary says a composite card's auxiliary part "must move/purge together
with its parent", so moving a card also moves its composed part to the same
location. -/
def moveCard (s : GState) (cid : Nat) (target : String) : GState :=
  let part := (s.cards cid).composedPart
  let s1 : GState :=
    { s with cards := fun i => if i = cid then { s.cards i with location := target } else s.cards i }
  match part with
  | none => s1
  | some pid =>
    { s1 with cards := fun i => if i = pid then { s1.cards i with location := target } else s1.cards i }

/-- `PurgeAction.purge`: capture the composed part of a gigantic card, move the
card to the purged pile, and, when an initiating actor (`purgedBy`) is
configured, append the card to that actor's `purgedCards` and stamp the
back-reference, doing the same for the captured composed part. -/
def purge (purgedBy : Option Nat) (cid : Nat) (s : GState) : GState :=
  let composedPart := if (s.cards cid).gigantic then (s.cards cid).composedPart else none
  let s1 := moveCard s cid "purged"
  match purgedBy with
  | none => s1
  | some actor =>
    let s2 : GState :=
      { s1 with
        purgedCards := fun p => if p = actor then s1.purgedCards p ++ [cid] else s1.purgedCards p,
        cards := fun i => if i = cid then { s1.cards i with purgedBy := some actor } else s1.cards i }
    match composedPart with
    | none => s2
    | some pid =>
      { s2 with
        purgedCards := fun p => if p = actor then s2.purgedCards p ++ [pid] else s2.purgedCards p,
        cards := fun i => if i = pid then { s2.cards i with purgedBy := some actor } else s2.cards i }

/-- Modelled from the spec: `game.raiseEvent` is not under src/. Section 4.2
says raising an event resolves every matching reaction and runs the event's
continuation only after the reaction subtree has settled. Reactions are
modelled as an arbitrary name-indexed state transformer supplied by the
environment; the raised name is recorded in the instrumentation log before the
reactions run. -/
def raiseEvent (reactions : String → GState → GState) (name : String)
    (handler : GState → GState) (s : GState) : GState :=
  handler (reactions name { s with raisedEvents := s.raisedEvents ++ [name] })

/-- An event as built by `createEvent`: a name plus the deferred handler that
performs the action's mutation when the event resolves. -/
structure Event where
  name : String
  handler : GState → GState

/-- `PurgeAction.getEvent`: build the `onCardPurged` event whose handler, at
resolution time, nests the purge mutation inside a raised `onCardLeavesPlay`
event when the card is in the play area and otherwise purges directly. -/
def getEvent (reactions : String → GState → GState) (purgedBy : Option Nat) (cid : Nat) : Event :=
  { name := "onCardPurged",
    handler := fun s =>
      if (s.cards cid).location = "play area" then
        raiseEvent reactions "onCardLeavesPlay" (fun s2 => purge purgedBy cid s2) s
      else
        purge purgedBy cid s }

/-- A card sitting in the play area, with no composed part. -/
def cardInPlay : PCard :=
  { location := "play area", gigantic := false, composedPart := none, purgedBy := none }

/-- A card sitting in the deck, with no composed part. -/
def cardInDeck : PCard :=
  { location := "deck", gigantic := false, composedPart := none, purgedBy := none }

/-- A game state in which every card is `cardInPlay`. -/
def statePlay : GState :=
  { cards := fun _ => cardInPlay, purgedCards := fun _ => [], raisedEvents := [] }

/-- A game state in which every card is `cardInDeck`. -/
def stateDeck : GState :=
  { cards := fun _ => cardInDeck, purgedCards := fun _ => [], raisedEvents := [] }

/-- The identity reaction environment: reactions change nothing. -/
def noReactions : String → GState → GState := fun _ s => s

/-- The auxiliary part card used in the C2 counterexample. -/
def cexPart : PCard :=
  { location := "play area", gigantic := false, composedPart := none, purgedBy := none }

/-- A non-gigantic card that nevertheless has a composed part (card 1). -/
def cexParent : PCard :=
  { location := "play area", gigantic := false, composedPart := some 1, purgedBy := none }

/-- State for the C2 counterexample: card 0 is `cexParent`, everything else is
`cexPart`. -/
def cexState : GState :=
  { cards := fun i => if i = 0 then cexParent else cexPart,
    purgedCards := fun _ => [],
    raisedEvents := [] }

/-- The auxiliary part card used in the C2 amended-claim witness. -/
def gigPart : PCard :=
  { location := "play area", gigantic := false, composedPart := none, purgedBy := none }

/-- A gigantic card whose composed part is card 1. -/
def gigParent : PCard :=
  { location := "play area", gigantic := true, composedPart := some 1, purgedBy := none }

/-- State for the C2 amended-claim witness: card 0 is `gigParent`. -/
def gigState : GState :=
  { cards := fun i => if i = 0 then gigParent else gigPart,
    purgedCards := fun _ => [],
    raisedEvents := [] }

end Purge

namespace SelectPrompt

/-- Mutable per-card selection flags, one record per card id. -/
structure Flags where
  selected : Bool
  opponentSelected : Bool
  selectable : Bool
deriving DecidableEq

/-- Immutable description of the game's cards: the `game.allCards` collection
and each card's type and controlling player. -/
structure CardsDesc where
  allCards : List Nat
  getType : Nat → String
  controller : Nat → Nat

/-- Shape of the argument `fireOnSelect` delivers to the `onSelect` callback:
either a single value (`selectedCards[0]`, absent when the selection is empty)
or the whole selection collection. -/
inductive CardParam where
  | single : Option Nat → CardParam
  | multi : List Nat → CardParam
deriving DecidableEq

/-- Mutable state of the prompt and of the cards it touches. `delivered` is
instrumentation recording the argument of the latest `onSelect` delivery
(`none` until `fireOnSelect` first runs). -/
structure PState where
  flags : Nat → Flags
  selectedCards : List Nat
  previouslySelectedCards : List (Nat × Bool × Bool)
  completed : Bool
  delivered : Option CardParam

/-- The `cardType` option may be supplied as a single type string or as an
array of type strings. -/
inductive CardTypeInput where
  | one : String → CardTypeInput
  | many : List String → CardTypeInput

/-- Caller-supplied properties of the prompt; `none` means the key is absent
and the `_.defaults` call fills it in. `maxStat` may read the mutable state at
each evaluation, matching a JS closure over game state. -/
structure InputProps where
  numCards : Option Nat
  multiSelect : Bool
  cardType : Option CardTypeInput
  cardCondition : Option (Nat → Bool)
  maxStat : Option (PState → Int)
  cardStat : Option (Nat → Int)
  onSelect : Option (CardParam → Bool)
  activePromptTitle : Option String

/-- Properties after `_.defaults` and the cardType array normalization.
`numCard` is the misspelled key that `defaultActivePromptTitle` reads: the
source never assigns it and the documented property set has no such key, so it
is always absent. -/
structure PromptProps where
  numCards : Nat
  multiSelect : Bool
  cardType : List String
  cardCondition : Nat → Bool
  maxStat : Option (PState → Int)
  cardStat : Option (Nat → Int)
  onSelect : CardParam → Bool
  activePromptTitle : Option String
  numCard : Option Nat

/-- The `_.defaults(this.properties, this.defaultProperties())` call plus the
`_.isArray` normalization of `cardType`. -/
def applyDefaults (input : InputProps) : PromptProps :=
  { numCards := input.numCards.getD 1,
    multiSelect := input.multiSelect,
    cardType :=
      match input.cardType.getD (CardTypeInput.many ["attachment", "character", "event", "location"]) with
      | CardTypeInput.one t => [t]
      | CardTypeInput.many ts => ts,
    cardCondition := input.cardCondition.getD (fun _ => true),
    maxStat := input.maxStat,
    cardStat := input.cardStat,
    onSelect := input.onSelect.getD (fun _ => true),
    activePromptTitle := input.activePromptTitle,
    numCard := none }

/-- `createMaxStatCardCondition`: the stat-bounded card condition installed when
both `maxStat` and `cardStat` are configured. -/
def createMaxStatCardCondition (cardCondition : Nat → Bool) (cardStat : Nat → Int)
    (maxStat : PState → Int) (card : Nat) (s : PState) : Bool :=
  if cardCondition card = false then false
  else
    let currentStatSum := s.selectedCards.foldl (fun sum c => sum + cardStat c) 0
    decide (cardStat card + currentStatSum ≤ maxStat s) ||
      decide (card ∈ s.selectedCards)

/-- The constructed prompt: the deciding player, the defaulted properties and
the installed `this.cardCondition`. -/
structure Prompt where
  choosingPlayer : Nat
  props : PromptProps
  cardCondition : Nat → PState → Bool

/-- The `SelectCardPrompt` constructor (configuration part): apply defaults and
install either the stat-bounded condition (when both `maxStat` and `cardStat`
are present) or the caller's plain condition. No failure path exists: the
source constructor contains no throw. -/
def mkPrompt (choosingPlayer : Nat) (input : InputProps) : Prompt :=
  let props := applyDefaults input
  { choosingPlayer := choosingPlayer,
    props := props,
    cardCondition :=
      match props.maxStat, props.cardStat with
      | some m, some cs => fun card s => createMaxStatCardCondition props.cardCondition cs m card s
      | _, _ => fun card _ => props.cardCondition card }

/-- A card carries a selection marker when either its own-selection or its
opponent-selection flag is set. -/
def markedB (s : PState) (c : Nat) : Bool :=
  (s.flags c).selected || (s.flags c).opponentSelected

/-- `savePreviouslySelectedCards`: snapshot every game card's pre-existing
selection markers into `previouslySelectedCards`, then clear the markers of
exactly the snapshotted cards. -/
def savePreviouslySelectedCards (g : CardsDesc) (s : PState) : PState :=
  { s with
    previouslySelectedCards :=
      (g.allCards.filter (fun c => markedB s c)).map
        (fun c => (c, (s.flags c).selected, (s.flags c).opponentSelected)),
    flags := fun c =>
      if c ∈ g.allCards ∧ markedB s c = true then
        { s.flags c with selected := false, opponentSelected := false }
      else s.flags c }

/-- The constructor's state effect: `this.selectedCards = []` followed by
`this.savePreviouslySelectedCards()`; a fresh prompt is neither completed nor
has delivered a selection. -/
def initState (g : CardsDesc) (s0 : PState) : PState :=
  savePreviouslySelectedCards g
    { s0 with selectedCards := [], completed := false, delivered := none }

/-- The snapshot `savePreviouslySelectedCards` stores, expressed over the
pre-construction state. -/
def prevOf (g : CardsDesc) (s0 : PState) : List (Nat × Bool × Bool) :=
  (g.allCards.filter (fun c => markedB s0 c)).map
    (fun c => (c, (s0.flags c).selected, (s0.flags c).opponentSelected))

/-- `checkCardCondition`: the type filter plus the installed card condition. -/
def checkCardCondition (g : CardsDesc) (pr : Prompt) (card : Nat) (s : PState) : Bool :=
  decide (g.getType card ∈ pr.props.cardType) && pr.cardCondition card s

/-- `selectCard`: reject a new card once the nonzero cardinality bound is met;
otherwise toggle the card's marker — the own-selection flag when the choosing
player controls the card, the opponent-selection flag otherwise — and update
the working selection accordingly. Returns whether the toggle happened. -/
def selectCard (g : CardsDesc) (pr : Prompt) (card : Nat) (s : PState) : Bool × PState :=
  if pr.props.numCards ≠ 0 ∧ pr.props.numCards ≤ s.selectedCards.length ∧
      card ∉ s.selectedCards then
    (false, s)
  else
    let f0 := s.flags card
    let f1 :=
      if pr.choosingPlayer ≠ g.controller card then
        { f0 with opponentSelected := !f0.opponentSelected }
      else
        { f0 with selected := !f0.selected }
    let s1 : PState := { s with flags := fun c => if c = card then f1 else s.flags c }
    let s2 : PState :=
      if (f1.selected || f1.opponentSelected) = true then
        { s1 with selectedCards := s1.selectedCards ++ [card] }
      else
        { s1 with selectedCards := s1.selectedCards.filter (fun c => decide (c ≠ card)) }
    (true, s2)

/-- `clearSelection`: clear the markers of the working selection, empty it,
clear every game card's selectable highlight, then restore the snapshotted
pre-existing markers verbatim. -/
def clearSelection (g : CardsDesc) (s : PState) : PState :=
  let s1 : PState :=
    { s with
      flags := fun c =>
        if c ∈ s.selectedCards then
          { s.flags c with selected := false, opponentSelected := false }
        else s.flags c,
      selectedCards := [] }
  let s2 : PState :=
    { s1 with
      flags := fun c =>
        if c ∈ g.allCards then { s1.flags c with selectable := false } else s1.flags c }
  { s2 with
    flags := fun c =>
      match s.previouslySelectedCards.find? (fun p => decide (p.1 = c)) with
      | some p => { s2.flags c with selected := p.2.1, opponentSelected := p.2.2 }
      | none => s2.flags c }

/-- `complete`: clear the selection (restoring prior markers) and mark the
prompt completed. -/
def complete (g : CardsDesc) (s : PState) : PState :=
  { clearSelection g s with completed := true }

/-- The argument shape `fireOnSelect` computes for the `onSelect` callback. -/
def cardParamOf (pr : Prompt) (s : PState) : CardParam :=
  if pr.props.numCards = 1 ∧ pr.props.multiSelect = false then
    CardParam.single s.selectedCards.head?
  else
    CardParam.multi s.selectedCards

/-- `fireOnSelect`: deliver the selection to `onSelect`; a truthy return
completes the prompt, a falsy one clears the working selection but keeps the
prompt active. The delivery is recorded in the `delivered` instrumentation. -/
def fireOnSelect (g : CardsDesc) (pr : Prompt) (s : PState) : PState :=
  let s1 : PState := { s with delivered := some (cardParamOf pr s) }
  if pr.props.onSelect (cardParamOf pr s) = true then complete g s1
  else clearSelection g s1

/-- `onCardClicked`: ignore clicks from anyone but the choosing player and
clicks failing the type filter or card condition; otherwise toggle the card
and auto-deliver when exactly one card is required, one is selected and the
array-forcing flag is unset. The Bool result is `false` exactly on the
source's silent `return false` paths. -/
def onCardClicked (g : CardsDesc) (pr : Prompt) (player : Nat) (card : Nat)
    (s : PState) : Bool × PState :=
  if player ≠ pr.choosingPlayer then (false, s)
  else if checkCardCondition g pr card s = false then (false, s)
  else
    let r := selectCard g pr card s
    if r.1 = false then (false, r.2)
    else if pr.props.numCards = 1 ∧ r.2.selectedCards.length = 1 ∧
        pr.props.multiSelect = false then
      (true, fireOnSelect g pr r.2)
    else (true, r.2)

/-- `highlightSelectableCards`: recompute the selectable highlight of every
game card of an eligible type from the installed card condition. The per-card
conditions are evaluated against the step's starting state (the condition
reads the working selection and caller data, never the selectable flags). -/
def highlightSelectableCards (g : CardsDesc) (pr : Prompt) (s : PState) : PState :=
  { s with
    flags := fun c =>
      if c ∈ g.allCards ∧ g.getType c ∈ pr.props.cardType then
        { s.flags c with selectable := pr.cardCondition c s }
      else s.flags c }

/-- The `done` branch of `onMenuCommand`: deliver a nonempty selection, or
invoke the cancellation callback (pure, modelled as a no-op on state) and
complete unconditionally. -/
def onMenuCommandDone (g : CardsDesc) (pr : Prompt) (player : Nat) (s : PState) : PState :=
  if player ≠ pr.choosingPlayer then s
  else if 0 < s.selectedCards.length then fireOnSelect g pr s
  else complete g s

/-- An interaction step while the prompt is active: a card click by some
player, or a driver-loop re-highlighting pass. -/
inductive PStep where
  | click : Nat → Nat → PStep
  | highlight : PStep

/-- Run one interaction step. -/
def runStep (g : CardsDesc) (pr : Prompt) (s : PState) : PStep → PState
  | PStep.click player card => (onCardClicked g pr player card s).2
  | PStep.highlight => highlightSelectableCards g pr s

/-- Run a sequence of interaction steps. -/
def runSteps (g : CardsDesc) (pr : Prompt) (l : List PStep) (s : PState) : PState :=
  l.foldl (fun st step => runStep g pr st step) s

/-- The working-selection invariant maintained between construction and the
first delivery: the selection has no duplicates, a card carries a marker
exactly when it is in the selection, and the marker not designated for a card
(opponent-selection for cards the choosing player controls, own-selection for
the rest) is never set. -/
def SelInv (g : CardsDesc) (pr : Prompt) (s : PState) : Prop :=
  s.selectedCards.Nodup ∧
  (∀ c, markedB s c = true ↔ c ∈ s.selectedCards) ∧
  (∀ c, (if pr.choosingPlayer = g.controller c then (s.flags c).opponentSelected
         else (s.flags c).selected) = false)

/-- Render an optional number the way JS string-interpolates the value of a
missing property: `undefined`. -/
def optNatText : Option Nat → String
  | none => "undefined"
  | some n => toString n

/-- `defaultActivePromptTitle`: reads the (never assigned) `numCard` property. -/
def defaultActivePromptTitle (props : PromptProps) : String :=
  if props.numCard = some 1 then "Select a card"
  else "Select " ++ optNatText props.numCard ++ " cards"

/-- The active-view descriptor shown to the deciding player (the fields the
claims reference). -/
structure ActivePromptView where
  selectCard : Bool
  menuTitle : String

/-- `activePrompt`: the active-view descriptor; without an `activePromptTitle`
the menu title falls back to `defaultActivePromptTitle`. -/
def activePrompt (pr : Prompt) : ActivePromptView :=
  { selectCard := true,
    menuTitle :=
      match pr.props.activePromptTitle with
      | some t => t
      | none => defaultActivePromptTitle pr.props }

/-- All selection flags off. -/
def flagsOff : Flags := { selected := false, opponentSelected := false, selectable := false }

/-- Own-selection flag on, the others off. -/
def flagsSelOn : Flags := { selected := true, opponentSelected := false, selectable := false }

/-- A state with no flags set and nothing selected. -/
def emptyPState : PState :=
  { flags := fun _ => flagsOff, selectedCards := [], previouslySelectedCards := [],
    completed := false, delivered := none }

/-- A small game: one card, id 5, a character controlled by player 0. -/
def gameW : CardsDesc :=
  { allCards := [5], getType := fun _ => "character", controller := fun _ => 0 }

/-- A caller property object with every optional key absent. -/
def inpPlain : InputProps :=
  { numCards := none, multiSelect := false, cardType := none, cardCondition := none,
    maxStat := none, cardStat := none, onSelect := none, activePromptTitle := none }

/-- C3 failing input: a stat bound (`maxStat`) configured without its extractor
(`cardStat`). -/
def inpC3 : InputProps :=
  { inpPlain with cardCondition := some (fun c => decide (c < 2)),
                  maxStat := some (fun _ => (0 : Int)) }

/-- Input configuring both stat options, an always-true predicate, maximum 5
and the identity stat. -/
def inpC4 : InputProps :=
  { inpPlain with cardCondition := some (fun _ => true),
                  maxStat := some (fun _ => (5 : Int)),
                  cardStat := some (fun c => (c : Int)) }

/-- Single-card prompt input without array forcing. -/
def inpOne : InputProps := { inpPlain with numCards := some 1 }

/-- Single-card prompt input with array forcing (`multiSelect`). -/
def inpOneMulti : InputProps := { inpPlain with numCards := some 1, multiSelect := true }

/-- Unbounded prompt input (`numCards` 0). -/
def inpZero : InputProps := { inpPlain with numCards := some 0 }

/-- Prompt input used for the C9 witness: a `numCards` value is configured but
no `activePromptTitle`. -/
def inpC9 : InputProps := { inpPlain with numCards := some 3 }

/-- A state in which card 5 is selected by its controller and the working
selection is exactly card 5. -/
def stateSel5 : PState :=
  { flags := fun c => if c = 5 then flagsSelOn else flagsOff,
    selectedCards := [5], previouslySelectedCards := [],
    completed := false, delivered := none }

/-- The game used by the C6 and C10 witnesses: one card, id 1. -/
def gameOne : CardsDesc :=
  { allCards := [1], getType := fun _ => "character", controller := fun _ => 0 }

/-- Pre-construction state for the C6 and C10 witnesses: card 1 carries a
pre-existing own-selection marker. -/
def statePre1 : PState :=
  { flags := fun c => if c = 1 then flagsSelOn else flagsOff,
    selectedCards := [], previouslySelectedCards := [],
    completed := false, delivered := none }

end SelectPrompt

namespace Purge

/-- C1: resolving the event built by `PurgeAction.getEvent`: when the card's
location is the play area at resolution time, the purge mutation runs as the
continuation of a synchronously raised `onCardLeavesPlay` event, i.e. on the
state the reactions to that event produce, with the event recorded in the log;
for any other location the purge mutation runs directly on the current state
and no leaves-play event is raised. -/
theorem purge_getEvent_resolution (reactions : String → GState → GState)
    (purgedBy : Option Nat) (cid : Nat) (s : GState) :
    ((s.cards cid).location = "play area" →
      (getEvent reactions purgedBy cid).handler s =
        purge purgedBy cid
          (reactions "onCardLeavesPlay"
            { s with raisedEvents := s.raisedEvents ++ ["onCardLeavesPlay"] })) ∧
    ((s.cards cid).location ≠ "play area" →
      (getEvent reactions purgedBy cid).handler s = purge purgedBy cid s) := by
  constructor <;> intro h <;> simp [getEvent, raiseEvent, h]

/-- Witness for C1 at concrete states: card 0 in the play area takes the
nested leaves-play path, card 0 in the deck purges directly. -/
theorem purge_getEvent_resolution_witness :
    (getEvent noReactions none 0).handler statePlay =
      purge none 0
        (noReactions "onCardLeavesPlay"
          { statePlay with raisedEvents := statePlay.raisedEvents ++ ["onCardLeavesPlay"] }) ∧
    (getEvent noReactions none 0).handler stateDeck = purge none 0 stateDeck :=
  ⟨(purge_getEvent_resolution noReactions none 0 statePlay).1 rfl,
   (purge_getEvent_resolution noReactions none 0 stateDeck).2 (by decide)⟩

/-- C2 counterexample: card 0 has a composed part (card 1) but is not gigantic.
Purging it with initiating actor 7 appends and stamps only the parent: the
composed part ends up neither in the actor's purged-card list nor stamped with
the `purgedBy` back-reference, so the claim fails as stated for a card with a
composed part that is not gigantic. -/
theorem purge_composed_not_gigantic_cex :
    (cexState.cards 0).composedPart = some 1 ∧
    (purge (some 7) 0 cexState).purgedCards 7 = [0] ∧
    ((purge (some 7) 0 cexState).cards 1).purgedBy = none := by
  refine ⟨rfl, ?_, ?_⟩ <;> decide

/-- C2 amended: for every gigantic card with a composed part and a configured
initiating actor, one invocation of the purge mutation moves both parent and
part to the purged location, appends both (parent first) to the actor's
purged-card list, and stamps both with the `purgedBy` back-reference — all
inside the single invocation, so no state between resolution passes shows only
one of the two purged. -/
theorem purge_composite_atomic (s : GState) (cid pid actor : Nat)
    (hg : (s.cards cid).gigantic = true)
    (hp : (s.cards cid).composedPart = some pid) :
    ((purge (some actor) cid s).cards cid).location = "purged" ∧
    ((purge (some actor) cid s).cards pid).location = "purged" ∧
    (purge (some actor) cid s).purgedCards actor = s.purgedCards actor ++ [cid, pid] ∧
    ((purge (some actor) cid s).cards cid).purgedBy = some actor ∧
    ((purge (some actor) cid s).cards pid).purgedBy = some actor := by
  by_cases hcp : cid = pid
  · subst hcp
    simp [purge, moveCard, hg, hp]
  · refine ⟨?_, ?_, ?_, ?_, ?_⟩ <;>
      simp [purge, moveCard, hg, hp, hcp, Ne.symm hcp]

/-- Witness for the amended C2 at a concrete gigantic card. -/
theorem purge_composite_atomic_witness :
    ((purge (some 7) 0 gigState).cards 0).location = "purged" ∧
    ((purge (some 7) 0 gigState).cards 1).location = "purged" ∧
    (purge (some 7) 0 gigState).purgedCards 7 = gigState.purgedCards 7 ++ [0, 1] ∧
    ((purge (some 7) 0 gigState).cards 0).purgedBy = some 7 ∧
    ((purge (some 7) 0 gigState).cards 1).purgedBy = some 7 :=
  purge_composite_atomic gigState 0 1 7 rfl rfl

end Purge

namespace SelectPrompt

/-- Folding addition of a per-card stat equals the sum of the mapped stats. -/
theorem foldl_add_stat (cs : Nat → Int) (l : List Nat) (a : Int) :
    l.foldl (fun sum c => sum + cs c) a = a + (l.map cs).sum := by
  induction l generalizing a with
  | nil => simp
  | cons x t ih => simp [List.foldl_cons, ih, add_assoc]

/-- C3: the constructor has no fail-fast path. On the failing input — a
`maxStat` bound configured without its `cardStat` extractor — construction
succeeds (the model of the source constructor is total because the source has
no throw), the defaults are applied, and the installed card condition is the
bare eligibility predicate: the stat configuration is silently ignored, where
the spec demands an immediate construction failure. -/
theorem mkPrompt_statconfig_ignored :
    inpC3.maxStat.isSome = true ∧
    inpC3.cardStat.isSome = false ∧
    (mkPrompt 0 inpC3).props.numCards = 1 ∧
    (mkPrompt 0 inpC3).cardCondition 1 emptyPState = true ∧
    (mkPrompt 0 inpC3).cardCondition 2 emptyPState = false := by
  refine ⟨rfl, rfl, rfl, ?_, ?_⟩ <;> decide

/-- C4: for a prompt configured with both `maxStat` and `cardStat`, the
installed card condition accepts a card exactly when the caller's eligibility
predicate accepts it and either the card's stat plus the sum of the stats of
the currently selected cards is at most the (re-evaluated, state-dependent)
maximum, or the card is already a member of the selection. -/
theorem mkPrompt_maxstat_condition (chooser : Nat) (input : InputProps)
    (m : PState → Int) (cs : Nat → Int) (p : Nat → Bool) (card : Nat) (s : PState)
    (hmax : input.maxStat = some m) (hstat : input.cardStat = some cs)
    (hcond : input.cardCondition = some p) :
    ((mkPrompt chooser input).cardCondition card s = true ↔
      (p card = true ∧
        (cs card + (s.selectedCards.map cs).sum ≤ m s ∨ card ∈ s.selectedCards))) := by
  have hred : (mkPrompt chooser input).cardCondition =
      fun card s => createMaxStatCardCondition p cs m card s := by
    simp [mkPrompt, applyDefaults, hmax, hstat, hcond]
  rw [hred]
  by_cases hp : p card = false
  · simp [createMaxStatCardCondition, hp]
  · have hp' : p card = true := by
      revert hp; cases p card <;> simp
    simp [createMaxStatCardCondition, hp', foldl_add_stat, decide_eq_true_iff]

/-- Witness for C4: with maximum 5 and the identity stat, card 3 passes the
condition in the empty selection. -/
theorem mkPrompt_maxstat_condition_witness :
    ((mkPrompt 0 inpC4).cardCondition 3 emptyPState = true ↔
      ((fun _ => true) 3 = true ∧
        ((fun c => (c : Int)) 3 + (emptyPState.selectedCards.map (fun c => (c : Int))).sum ≤
            (fun _ => (5 : Int)) emptyPState ∨
          3 ∈ emptyPState.selectedCards))) :=
  mkPrompt_maxstat_condition 0 inpC4 (fun _ => (5 : Int)) (fun c => (c : Int))
    (fun _ => true) 3 emptyPState rfl rfl rfl

/-- C7: the shape of the argument recorded by a `fireOnSelect` delivery: with
bound 1 and no array forcing the lone selected card is delivered as a single
value; with bound 1 and array forcing it is delivered as a one-element
collection; with bound 0 the whole collection is always delivered. -/
theorem fireOnSelect_result_shape (g : CardsDesc) (pr : Prompt) (s : PState) (c : Nat) :
    (pr.props.numCards = 1 → pr.props.multiSelect = false → s.selectedCards = [c] →
      (fireOnSelect g pr s).delivered = some (CardParam.single (some c))) ∧
    (pr.props.numCards = 1 → pr.props.multiSelect = true → s.selectedCards = [c] →
      (fireOnSelect g pr s).delivered = some (CardParam.multi [c])) ∧
    (pr.props.numCards = 0 →
      (fireOnSelect g pr s).delivered = some (CardParam.multi s.selectedCards)) := by
  have hdel : (fireOnSelect g pr s).delivered = some (cardParamOf pr s) := by
    unfold fireOnSelect
    split
    · simp [complete, clearSelection]
    · simp [clearSelection]
  refine ⟨?_, ?_, ?_⟩
  · intro h1 h2 h3
    rw [hdel]
    simp [cardParamOf, h1, h2, h3]
  · intro h1 h2 h3
    rw [hdel]
    simp [cardParamOf, h1, h2, h3]
  · intro h0
    rw [hdel]
    simp [cardParamOf, h0]

/-- Witness for C7 at concrete prompts: card 5 selected, the three
configurations deliver the three claimed shapes. -/
theorem fireOnSelect_result_shape_witness :
    (fireOnSelect gameW (mkPrompt 0 inpOne) stateSel5).delivered =
        some (CardParam.single (some 5)) ∧
    (fireOnSelect gameW (mkPrompt 0 inpOneMulti) stateSel5).delivered =
        some (CardParam.multi [5]) ∧
    (fireOnSelect gameW (mkPrompt 0 inpZero) stateSel5).delivered =
        some (CardParam.multi stateSel5.selectedCards) :=
  ⟨(fireOnSelect_result_shape gameW (mkPrompt 0 inpOne) stateSel5 5).1 rfl rfl rfl,
   (fireOnSelect_result_shape gameW (mkPrompt 0 inpOneMulti) stateSel5 5).2.1 rfl rfl rfl,
   (fireOnSelect_result_shape gameW (mkPrompt 0 inpZero) stateSel5 5).2.2 rfl⟩

/-- C8: a click from someone other than the deciding player, or on a card that
fails the type filter or the installed eligibility condition, is rejected
silently: the handler returns the source's silent-failure result and the state
— markers, working selection, completion — is exactly unchanged. -/
theorem onCardClicked_illegal_rejected (g : CardsDesc) (pr : Prompt)
    (player : Nat) (card : Nat) (s : PState)
    (h : player ≠ pr.choosingPlayer ∨ g.getType card ∉ pr.props.cardType ∨
      pr.cardCondition card s = false) :
    onCardClicked g pr player card s = (false, s) := by
  rcases h with h | h | h
  · simp [onCardClicked, h]
  · by_cases hp : player = pr.choosingPlayer
    · simp [onCardClicked, hp, checkCardCondition, h]
    · simp [onCardClicked, hp]
  · by_cases hp : player = pr.choosingPlayer
    · simp [onCardClicked, hp, checkCardCondition, h]
    · simp [onCardClicked, hp]

/-- Witness for C8: player 1 clicks while player 0 is deciding; the click is
rejected with the state unchanged. -/
theorem onCardClicked_illegal_rejected_witness :
    onCardClicked gameW (mkPrompt 0 inpOne) 1 5 emptyPState = (false, emptyPState) :=
  onCardClicked_illegal_rejected gameW (mkPrompt 0 inpOne) 1 5 emptyPState
    (Or.inl (by decide))

/-- C9: for any prompt constructed without an `activePromptTitle`, the
active-view menu title is the string `Select undefined cards` regardless of the
configured `numCards`: `defaultActivePromptTitle` reads the never-assigned
`numCard` property, so the `Select a card` branch is unreachable. -/
theorem activePrompt_title_undefined (chooser : Nat) (input : InputProps)
    (h : input.activePromptTitle = none) :
    (activePrompt (mkPrompt chooser input)).menuTitle = "Select undefined cards" := by
  simp [activePrompt, mkPrompt, applyDefaults, defaultActivePromptTitle, optNatText, h]

/-- Witness for C9: a prompt configured with `numCards` 3 and no title still
shows `Select undefined cards`. -/
theorem activePrompt_title_undefined_witness :
    (activePrompt (mkPrompt 0 inpC9)).menuTitle = "Select undefined cards" :=
  activePrompt_title_undefined 0 inpC9 rfl

/-- A full-selection toggle of a non-member is rejected with no state change. -/
theorem selectCard_reject (g : CardsDesc) (pr : Prompt) (card : Nat) (s : PState)
    (h1 : pr.props.numCards ≠ 0) (h2 : pr.props.numCards ≤ s.selectedCards.length)
    (h3 : card ∉ s.selectedCards) :
    selectCard g pr card s = (false, s) := by
  unfold selectCard
  rw [if_pos ⟨h1, h2, h3⟩]

/-- With bound 0 the toggle always happens. -/
theorem selectCard_zero (g : CardsDesc) (pr : Prompt) (card : Nat) (s : PState)
    (h0 : pr.props.numCards = 0) :
    (selectCard g pr card s).1 = true := by
  have hguard : ¬(pr.props.numCards ≠ 0 ∧ pr.props.numCards ≤ s.selectedCards.length ∧
      card ∉ s.selectedCards) := fun h => h.1 h0
  simp only [selectCard, if_neg hguard]

/-- Toggling a card the choosing player controls, whose own-selection flag is
set, turns the marker off and removes the card from the working selection. -/
theorem selectCard_toggle_off_own (g : CardsDesc) (pr : Prompt) (card : Nat) (s : PState)
    (hc : pr.choosingPlayer = g.controller card)
    (hsel : (s.flags card).selected = true)
    (hopp : (s.flags card).opponentSelected = false)
    (hguard : ¬(pr.props.numCards ≠ 0 ∧ pr.props.numCards ≤ s.selectedCards.length ∧
      card ∉ s.selectedCards)) :
    selectCard g pr card s =
      (true,
        { s with
          flags := fun c =>
            if c = card then { s.flags card with selected := false, opponentSelected := false }
            else s.flags c,
          selectedCards := s.selectedCards.filter (fun c => decide (c ≠ card)) }) := by
  simp only [selectCard, if_neg hguard,
    if_neg (by simp [hc] : ¬(pr.choosingPlayer ≠ g.controller card))]
  simp [hsel, hopp]

/-- Toggling a card the choosing player does not control, whose
opponent-selection flag is set, turns the marker off and removes the card
from the working selection. -/
theorem selectCard_toggle_off_opp (g : CardsDesc) (pr : Prompt) (card : Nat) (s : PState)
    (hc : pr.choosingPlayer ≠ g.controller card)
    (hsel : (s.flags card).selected = false)
    (hopp : (s.flags card).opponentSelected = true)
    (hguard : ¬(pr.props.numCards ≠ 0 ∧ pr.props.numCards ≤ s.selectedCards.length ∧
      card ∉ s.selectedCards)) :
    selectCard g pr card s =
      (true,
        { s with
          flags := fun c =>
            if c = card then { s.flags card with selected := false, opponentSelected := false }
            else s.flags c,
          selectedCards := s.selectedCards.filter (fun c => decide (c ≠ card)) }) := by
  simp only [selectCard, if_neg hguard, if_pos hc]
  simp [hsel, hopp]

/-- Toggling an unmarked card the choosing player controls sets its
own-selection flag and appends it to the working selection. -/
theorem selectCard_toggle_on_own (g : CardsDesc) (pr : Prompt) (card : Nat) (s : PState)
    (hc : pr.choosingPlayer = g.controller card)
    (hsel : (s.flags card).selected = false)
    (hopp : (s.flags card).opponentSelected = false)
    (hguard : ¬(pr.props.numCards ≠ 0 ∧ pr.props.numCards ≤ s.selectedCards.length ∧
      card ∉ s.selectedCards)) :
    selectCard g pr card s =
      (true,
        { s with
          flags := fun c =>
            if c = card then { s.flags card with selected := true, opponentSelected := false }
            else s.flags c,
          selectedCards := s.selectedCards ++ [card] }) := by
  simp only [selectCard, if_neg hguard,
    if_neg (by simp [hc] : ¬(pr.choosingPlayer ≠ g.controller card))]
  simp [hsel, hopp]

/-- Toggling an unmarked card the choosing player does not control sets its
opponent-selection flag and appends it to the working selection. -/
theorem selectCard_toggle_on_opp (g : CardsDesc) (pr : Prompt) (card : Nat) (s : PState)
    (hc : pr.choosingPlayer ≠ g.controller card)
    (hsel : (s.flags card).selected = false)
    (hopp : (s.flags card).opponentSelected = false)
    (hguard : ¬(pr.props.numCards ≠ 0 ∧ pr.props.numCards ≤ s.selectedCards.length ∧
      card ∉ s.selectedCards)) :
    selectCard g pr card s =
      (true,
        { s with
          flags := fun c =>
            if c = card then { s.flags card with selected := false, opponentSelected := true }
            else s.flags c,
          selectedCards := s.selectedCards ++ [card] }) := by
  simp only [selectCard, if_neg hguard, if_pos hc]
  simp [hsel, hopp]

/-- A toggle that reports failure left the state untouched. -/
theorem selectCard_fst_false (g : CardsDesc) (pr : Prompt) (card : Nat) (s : PState)
    (h : (selectCard g pr card s).1 = false) :
    (selectCard g pr card s).2 = s := by
  by_cases hguard : pr.props.numCards ≠ 0 ∧ pr.props.numCards ≤ s.selectedCards.length ∧
      card ∉ s.selectedCards
  · simp [selectCard, hguard]
  · simp [selectCard, hguard] at h

/-- `selectCard` never changes the delivery instrumentation. -/
theorem selectCard_delivered (g : CardsDesc) (pr : Prompt) (card : Nat) (s : PState) :
    (selectCard g pr card s).2.delivered = s.delivered := by
  by_cases hguard : pr.props.numCards ≠ 0 ∧ pr.props.numCards ≤ s.selectedCards.length ∧
      card ∉ s.selectedCards
  · simp [selectCard, hguard]
  · simp only [selectCard, if_neg hguard]
    split <;> (split <;> rfl)

/-- `selectCard` never changes the saved snapshot. -/
theorem selectCard_prev (g : CardsDesc) (pr : Prompt) (card : Nat) (s : PState) :
    (selectCard g pr card s).2.previouslySelectedCards = s.previouslySelectedCards := by
  by_cases hguard : pr.props.numCards ≠ 0 ∧ pr.props.numCards ≤ s.selectedCards.length ∧
      card ∉ s.selectedCards
  · simp [selectCard, hguard]
  · simp only [selectCard, if_neg hguard]
    split <;> (split <;> rfl)

/-- `clearSelection` never changes the delivery instrumentation. -/
theorem clearSelection_delivered (g : CardsDesc) (s : PState) :
    (clearSelection g s).delivered = s.delivered := rfl

/-- `fireOnSelect` records the delivered argument. -/
theorem fireOnSelect_delivered_some (g : CardsDesc) (pr : Prompt) (s : PState) :
    (fireOnSelect g pr s).delivered = some (cardParamOf pr s) := by
  unfold fireOnSelect
  split <;> rfl

/-- `fireOnSelect` never changes the saved snapshot. -/
theorem fireOnSelect_prev (g : CardsDesc) (pr : Prompt) (s : PState) :
    (fireOnSelect g pr s).previouslySelectedCards = s.previouslySelectedCards := by
  unfold fireOnSelect
  split <;> rfl

/-- Re-highlighting never changes a card's selection markers. -/
theorem highlight_flags_marker (g : CardsDesc) (pr : Prompt) (s : PState) (c : Nat) :
    ((highlightSelectableCards g pr s).flags c).selected = (s.flags c).selected ∧
    ((highlightSelectableCards g pr s).flags c).opponentSelected =
      (s.flags c).opponentSelected := by
  unfold highlightSelectableCards
  by_cases h : c ∈ g.allCards ∧ g.getType c ∈ pr.props.cardType
  · simp [h]
  · simp [h]

/-- `selectCard` preserves the working-selection invariant. -/
theorem selectCard_inv (g : CardsDesc) (pr : Prompt) (card : Nat) (s : PState)
    (hinv : SelInv g pr s) :
    SelInv g pr (selectCard g pr card s).2 := by
  obtain ⟨hnd, hmark, hdes⟩ := hinv
  by_cases hguard : pr.props.numCards ≠ 0 ∧ pr.props.numCards ≤ s.selectedCards.length ∧
      card ∉ s.selectedCards
  · rw [selectCard_reject g pr card s hguard.1 hguard.2.1 hguard.2.2]
    exact ⟨hnd, hmark, hdes⟩
  · by_cases hm : card ∈ s.selectedCards
    · have hmk : markedB s card = true := (hmark card).mpr hm
      by_cases hc : pr.choosingPlayer = g.controller card
      · have hopp : (s.flags card).opponentSelected = false := by simpa [hc] using hdes card
        have hsel : (s.flags card).selected = true := by
          unfold markedB at hmk
          rw [hopp, Bool.or_false] at hmk
          exact hmk
        rw [selectCard_toggle_off_own g pr card s hc hsel hopp hguard]
        refine ⟨hnd.filter _, ?_, ?_⟩
        · intro c
          by_cases hcc : c = card
          · subst hcc
            simp [markedB, List.mem_filter]
          · have hm2 : ((s.flags c).selected = true ∨ (s.flags c).opponentSelected = true) ↔
                c ∈ s.selectedCards := by simpa [markedB] using hmark c
            simp [markedB, List.mem_filter, hcc, hm2]
        · intro c
          by_cases hcc : c = card
          · subst hcc
            simp [hc]
          · simpa [hcc] using hdes c
      · have hsel : (s.flags card).selected = false := by simpa [hc] using hdes card
        have hopp : (s.flags card).opponentSelected = true := by
          unfold markedB at hmk
          rw [hsel, Bool.false_or] at hmk
          exact hmk
        rw [selectCard_toggle_off_opp g pr card s hc hsel hopp hguard]
        refine ⟨hnd.filter _, ?_, ?_⟩
        · intro c
          by_cases hcc : c = card
          · subst hcc
            simp [markedB, List.mem_filter]
          · have hm2 : ((s.flags c).selected = true ∨ (s.flags c).opponentSelected = true) ↔
                c ∈ s.selectedCards := by simpa [markedB] using hmark c
            simp [markedB, List.mem_filter, hcc, hm2]
        · intro c
          by_cases hcc : c = card
          · subst hcc
            simp [hc]
          · simpa [hcc] using hdes c
    · have hmk : markedB s card = false := by
        cases h : markedB s card
        · rfl
        · exact absurd ((hmark card).mp h) hm
      have hsel : (s.flags card).selected = false := (Bool.or_eq_false_iff.mp hmk).1
      have hopp : (s.flags card).opponentSelected = false := (Bool.or_eq_false_iff.mp hmk).2
      by_cases hc : pr.choosingPlayer = g.controller card
      · rw [selectCard_toggle_on_own g pr card s hc hsel hopp hguard]
        refine ⟨?_, ?_, ?_⟩
        · rw [List.nodup_append]
          exact ⟨hnd, List.nodup_singleton _, fun a ha hb => hm (List.mem_singleton.mp hb ▸ ha)⟩
        · intro c
          by_cases hcc : c = card
          · subst hcc
            simp [markedB]
          · have hm2 : ((s.flags c).selected = true ∨ (s.flags c).opponentSelected = true) ↔
                c ∈ s.selectedCards := by simpa [markedB] using hmark c
            simp [markedB, List.mem_append, hcc, hm2]
        · intro c
          by_cases hcc : c = card
          · subst hcc
            simp [hc]
          · simpa [hcc] using hdes c
      · rw [selectCard_toggle_on_opp g pr card s hc hsel hopp hguard]
        refine ⟨?_, ?_, ?_⟩
        · rw [List.nodup_append]
          exact ⟨hnd, List.nodup_singleton _, fun a ha hb => hm (List.mem_singleton.mp hb ▸ ha)⟩
        · intro c
          by_cases hcc : c = card
          · subst hcc
            simp [markedB]
          · have hm2 : ((s.flags c).selected = true ∨ (s.flags c).opponentSelected = true) ↔
                c ∈ s.selectedCards := by simpa [markedB] using hmark c
            simp [markedB, List.mem_append, hcc, hm2]
        · intro c
          by_cases hcc : c = card
          · subst hcc
            simp [hc]
          · simpa [hcc] using hdes c

/-- A step that leaves the delivery instrumentation empty started from an
empty one. -/
theorem runStep_delivered_none (g : CardsDesc) (pr : Prompt) (s : PState) (st : PStep)
    (h : (runStep g pr s st).delivered = none) :
    s.delivered = none := by
  cases st with
  | highlight => exact h
  | click player card =>
    simp only [runStep, onCardClicked] at h
    by_cases h1 : player ≠ pr.choosingPlayer
    · rw [if_pos h1] at h
      exact h
    · rw [if_neg h1] at h
      by_cases h2 : checkCardCondition g pr card s = false
      · rw [if_pos h2] at h
        exact h
      · rw [if_neg h2] at h
        by_cases h3 : (selectCard g pr card s).1 = false
        · rw [if_pos h3] at h
          have h4 := selectCard_fst_false g pr card s h3
          show s.delivered = none
          have : (selectCard g pr card s).2.delivered = none := h
          rw [h4] at this
          exact this
        · rw [if_neg h3] at h
          by_cases h4 : pr.props.numCards = 1 ∧ (selectCard g pr card s).2.selectedCards.length = 1 ∧
              pr.props.multiSelect = false
          · rw [if_pos h4] at h
            have : (fireOnSelect g pr (selectCard g pr card s).2).delivered = none := h
            rw [fireOnSelect_delivered_some] at this
            exact Option.noConfusion this
          · rw [if_neg h4] at h
            have : (selectCard g pr card s).2.delivered = none := h
            rw [selectCard_delivered] at this
            exact this

/-- Steps never change the saved snapshot of pre-existing markers. -/
theorem runStep_prev (g : CardsDesc) (pr : Prompt) (s : PState) (st : PStep) :
    (runStep g pr s st).previouslySelectedCards = s.previouslySelectedCards := by
  cases st with
  | highlight => rfl
  | click player card =>
    simp only [runStep, onCardClicked]
    by_cases h1 : player ≠ pr.choosingPlayer
    · rw [if_pos h1]
    · rw [if_neg h1]
      by_cases h2 : checkCardCondition g pr card s = false
      · rw [if_pos h2]
      · rw [if_neg h2]
        by_cases h3 : (selectCard g pr card s).1 = false
        · rw [if_pos h3]
          exact selectCard_prev g pr card s
        · rw [if_neg h3]
          by_cases h4 : pr.props.numCards = 1 ∧ (selectCard g pr card s).2.selectedCards.length = 1 ∧
              pr.props.multiSelect = false
          · rw [if_pos h4]
            show (fireOnSelect g pr (selectCard g pr card s).2).previouslySelectedCards = _
            rw [fireOnSelect_prev, selectCard_prev]
          · rw [if_neg h4]
            exact selectCard_prev g pr card s

/-- A step that ends without a delivery preserves the working-selection
invariant. -/
theorem runStep_inv (g : CardsDesc) (pr : Prompt) (s : PState) (st : PStep)
    (hinv : SelInv g pr s) (h : (runStep g pr s st).delivered = none) :
    SelInv g pr (runStep g pr s st) := by
  cases st with
  | highlight =>
    obtain ⟨hnd, hmark, hdes⟩ := hinv
    refine ⟨hnd, ?_, ?_⟩
    · intro c
      have hf := highlight_flags_marker g pr s c
      show markedB (highlightSelectableCards g pr s) c = true ↔
        c ∈ (highlightSelectableCards g pr s).selectedCards
      unfold markedB
      rw [hf.1, hf.2]
      exact hmark c
    · intro c
      have hf := highlight_flags_marker g pr s c
      show (if pr.choosingPlayer = g.controller c
          then ((highlightSelectableCards g pr s).flags c).opponentSelected
          else ((highlightSelectableCards g pr s).flags c).selected) = false
      rw [hf.1, hf.2]
      exact hdes c
  | click player card =>
    simp only [runStep, onCardClicked] at h ⊢
    by_cases h1 : player ≠ pr.choosingPlayer
    · rw [if_pos h1]
      exact hinv
    · rw [if_neg h1] at h ⊢
      by_cases h2 : checkCardCondition g pr card s = false
      · rw [if_pos h2]
        exact hinv
      · rw [if_neg h2] at h ⊢
        by_cases h3 : (selectCard g pr card s).1 = false
        · rw [if_pos h3]
          show SelInv g pr (selectCard g pr card s).2
          exact selectCard_inv g pr card s hinv
        · rw [if_neg h3] at h ⊢
          by_cases h4 : pr.props.numCards = 1 ∧ (selectCard g pr card s).2.selectedCards.length = 1 ∧
              pr.props.multiSelect = false
          · rw [if_pos h4] at h
            have : (fireOnSelect g pr (selectCard g pr card s).2).delivered = none := h
            rw [fireOnSelect_delivered_some] at this
            exact Option.noConfusion this
          · rw [if_neg h4]
            show SelInv g pr (selectCard g pr card s).2
            exact selectCard_inv g pr card s hinv

/-- A run that ends without a delivery started from an empty instrumentation. -/
theorem runSteps_delivered_none (g : CardsDesc) (pr : Prompt) (l : List PStep) (s : PState)
    (h : (runSteps g pr l s).delivered = none) :
    s.delivered = none := by
  induction l generalizing s with
  | nil => exact h
  | cons st t ih => exact runStep_delivered_none g pr s st (ih (runStep g pr s st) h)

/-- Runs never change the saved snapshot. -/
theorem runSteps_prev (g : CardsDesc) (pr : Prompt) (l : List PStep) (s : PState) :
    (runSteps g pr l s).previouslySelectedCards = s.previouslySelectedCards := by
  induction l generalizing s with
  | nil => rfl
  | cons st t ih =>
    calc (runSteps g pr t (runStep g pr s st)).previouslySelectedCards
        = (runStep g pr s st).previouslySelectedCards := ih (runStep g pr s st)
      _ = s.previouslySelectedCards := runStep_prev g pr s st

/-- A run that ends without a delivery preserves the working-selection
invariant. -/
theorem runSteps_inv (g : CardsDesc) (pr : Prompt) (l : List PStep) (s : PState)
    (hinv : SelInv g pr s) (h : (runSteps g pr l s).delivered = none) :
    SelInv g pr (runSteps g pr l s) := by
  induction l generalizing s with
  | nil => exact hinv
  | cons st t ih =>
    have h1 : (runStep g pr s st).delivered = none :=
      runSteps_delivered_none g pr t (runStep g pr s st) h
    exact ih (runStep g pr s st) (runStep_inv g pr s st hinv h1) h

/-- The flags after construction: snapshotted cards are cleared, everything
else is untouched. -/
theorem initState_flags (g : CardsDesc) (s0 : PState) (c : Nat) :
    (initState g s0).flags c =
      if c ∈ g.allCards ∧ markedB s0 c = true then
        { s0.flags c with selected := false, opponentSelected := false }
      else s0.flags c := rfl

/-- The snapshot after construction is `prevOf`. -/
theorem initState_prev (g : CardsDesc) (s0 : PState) :
    (initState g s0).previouslySelectedCards = prevOf g s0 := rfl

/-- After construction no card carries a selection marker, provided every
marked card is a game card. -/
theorem initState_markers (g : CardsDesc) (s0 : PState)
    (h0 : ∀ c, markedB s0 c = true → c ∈ g.allCards) (c : Nat) :
    markedB (initState g s0) c = false := by
  by_cases hm : markedB s0 c = true
  · have hc := h0 c hm
    unfold markedB
    rw [initState_flags, if_pos ⟨hc, hm⟩]
    rfl
  · have hm2 : markedB s0 c = false := by
      cases h : markedB s0 c
      · rfl
      · exact absurd h hm
    unfold markedB
    rw [initState_flags, if_neg (fun hand => hm hand.2)]
    unfold markedB at hm2
    exact hm2

/-- The working-selection invariant holds at construction, provided every
marked card is a game card. -/
theorem initState_inv (g : CardsDesc) (pr : Prompt) (s0 : PState)
    (h0 : ∀ c, markedB s0 c = true → c ∈ g.allCards) :
    SelInv g pr (initState g s0) := by
  refine ⟨List.nodup_nil, ?_, ?_⟩
  · intro c
    rw [initState_markers g s0 h0 c]
    show false = true ↔ c ∈ ([] : List Nat)
    simp
  · intro c
    have hmk := initState_markers g s0 h0 c
    unfold markedB at hmk
    have hsel := (Bool.or_eq_false_iff.mp hmk).1
    have hopp := (Bool.or_eq_false_iff.mp hmk).2
    split
    · exact hopp
    · exact hsel

/-- In the snapshot taken over state `s0`, looking up a marked member of the
card list finds its saved markers. -/
theorem find_prev_marked (s0 : PState) (c : Nat) (l : List Nat)
    (hm : markedB s0 c = true) (hc : c ∈ l) :
    ((l.filter (fun x => markedB s0 x)).map
        (fun x => (x, (s0.flags x).selected, (s0.flags x).opponentSelected))).find?
      (fun p => decide (p.1 = c)) =
    some (c, (s0.flags c).selected, (s0.flags c).opponentSelected) := by
  induction l with
  | nil => cases hc
  | cons a t ih =>
    by_cases ha : markedB s0 a = true
    · rw [List.filter_cons_of_pos ha, List.map_cons]
      by_cases hac : a = c
      · subst hac
        rw [List.find?_cons_of_pos _ (by simp)]
      · rw [List.find?_cons_of_neg _ (by simp [hac])]
        refine ih ?_
        rcases List.mem_cons.mp hc with h | h
        · exact absurd h.symm hac
        · exact h
    · rw [List.filter_cons_of_neg (by simpa using ha)]
      refine ih ?_
      rcases List.mem_cons.mp hc with h | h
      · subst h
        exact absurd hm ha
      · exact h

/-- In the snapshot taken over state `s0`, looking up an unmarked card finds
nothing. -/
theorem find_prev_unmarked (s0 : PState) (c : Nat) (l : List Nat)
    (hm : markedB s0 c = false) :
    ((l.filter (fun x => markedB s0 x)).map
        (fun x => (x, (s0.flags x).selected, (s0.flags x).opponentSelected))).find?
      (fun p => decide (p.1 = c)) = none := by
  induction l with
  | nil => rfl
  | cons a t ih =>
    by_cases ha : markedB s0 a = true
    · rw [List.filter_cons_of_pos ha, List.map_cons]
      rw [List.find?_cons_of_neg]
      · exact ih
      · intro hac
        have hac2 : a = c := of_decide_eq_true hac
        subst hac2
        rw [hm] at ha
        exact Bool.noConfusion ha
    · rw [List.filter_cons_of_neg (by simpa using ha)]
      exact ih

/-- Pointwise description of the flags `clearSelection` produces: clear the
working selection's markers, clear every game card's selectable highlight,
then overwrite with the snapshotted markers where the snapshot has an entry. -/
theorem clearSelection_flags_char (g : CardsDesc) (s : PState) (c : Nat) :
    (clearSelection g s).flags c =
      match s.previouslySelectedCards.find? (fun p => decide (p.1 = c)) with
      | some p =>
        { (if c ∈ g.allCards then
             { (if c ∈ s.selectedCards then
                  { s.flags c with selected := false, opponentSelected := false }
                else s.flags c) with selectable := false }
           else (if c ∈ s.selectedCards then
                  { s.flags c with selected := false, opponentSelected := false }
                else s.flags c)) with selected := p.2.1, opponentSelected := p.2.2 }
      | none =>
        if c ∈ g.allCards then
          { (if c ∈ s.selectedCards then
               { s.flags c with selected := false, opponentSelected := false }
             else s.flags c) with selectable := false }
        else (if c ∈ s.selectedCards then
               { s.flags c with selected := false, opponentSelected := false }
             else s.flags c) := rfl

/-- Looking up a marked game card in the construction snapshot finds its saved
markers. -/
theorem find_prevOf_marked (g : CardsDesc) (s0 : PState) (c : Nat)
    (hm : markedB s0 c = true) (hc : c ∈ g.allCards) :
    (prevOf g s0).find? (fun p => decide (p.1 = c)) =
      some (c, (s0.flags c).selected, (s0.flags c).opponentSelected) :=
  find_prev_marked s0 c g.allCards hm hc

/-- Looking up an unmarked card in the construction snapshot finds nothing. -/
theorem find_prevOf_unmarked (g : CardsDesc) (s0 : PState) (c : Nat)
    (hm : markedB s0 c = false) :
    (prevOf g s0).find? (fun p => decide (p.1 = c)) = none :=
  find_prev_unmarked s0 c g.allCards hm

/-- C5: with a nonzero bound met by the current selection, toggling a
non-member is rejected with no state change; toggling an existing member
always succeeds and removes it from the working selection; with bound 0 the
toggle is never rejected. The invariant hypothesis describes the states the
prompt machine actually reaches (established by `initState_inv`,
`selectCard_inv` and `runSteps_inv`). -/
theorem selectCard_cardinality (g : CardsDesc) (pr : Prompt) (card : Nat) (s : PState)
    (hinv : SelInv g pr s) :
    (pr.props.numCards ≠ 0 → s.selectedCards.length = pr.props.numCards →
      card ∉ s.selectedCards → selectCard g pr card s = (false, s)) ∧
    (card ∈ s.selectedCards →
      (selectCard g pr card s).1 = true ∧
      card ∉ (selectCard g pr card s).2.selectedCards) ∧
    (pr.props.numCards = 0 → (selectCard g pr card s).1 = true) := by
  obtain ⟨hnd, hmark, hdes⟩ := hinv
  refine ⟨?_, ?_, ?_⟩
  · intro h1 h2 h3
    exact selectCard_reject g pr card s h1 (le_of_eq h2.symm) h3
  · intro hm
    have hmk : markedB s card = true := (hmark card).mpr hm
    have hguard : ¬(pr.props.numCards ≠ 0 ∧ pr.props.numCards ≤ s.selectedCards.length ∧
        card ∉ s.selectedCards) := fun h => h.2.2 hm
    by_cases hc : pr.choosingPlayer = g.controller card
    · have hopp : (s.flags card).opponentSelected = false := by simpa [hc] using hdes card
      have hsel : (s.flags card).selected = true := by
        unfold markedB at hmk
        rw [hopp, Bool.or_false] at hmk
        exact hmk
      rw [selectCard_toggle_off_own g pr card s hc hsel hopp hguard]
      exact ⟨rfl, by simp [List.mem_filter]⟩
    · have hsel : (s.flags card).selected = false := by simpa [hc] using hdes card
      have hopp : (s.flags card).opponentSelected = true := by
        unfold markedB at hmk
        rw [hsel, Bool.false_or] at hmk
        exact hmk
      rw [selectCard_toggle_off_opp g pr card s hc hsel hopp hguard]
      exact ⟨rfl, by simp [List.mem_filter]⟩
  · exact selectCard_zero g pr card s

/-- The concrete state `stateSel5` satisfies the invariant for the concrete
single-card prompt. -/
theorem stateSel5_inv : SelInv gameW (mkPrompt 0 inpOne) stateSel5 := by
  refine ⟨by simp [stateSel5], ?_, ?_⟩
  · intro c
    by_cases hc : c = 5
    · subst hc
      simp [markedB, stateSel5, flagsSelOn]
    · simp [markedB, stateSel5, hc, flagsOff]
  · intro c
    by_cases hc : c = 5
    · subst hc
      simp [stateSel5, flagsSelOn, flagsOff, gameW, mkPrompt, applyDefaults, inpOne, inpPlain]
    · simp [stateSel5, hc, flagsOff, gameW, mkPrompt, applyDefaults, inpOne, inpPlain]

/-- Witness for C5: with bound 1 and card 5 selected, clicking card 7 is
rejected with no state change. -/
theorem selectCard_cardinality_witness :
    selectCard gameW (mkPrompt 0 inpOne) 7 stateSel5 = (false, stateSel5) :=
  (selectCard_cardinality gameW (mkPrompt 0 inpOne) 7 stateSel5 stateSel5_inv).1
    (by decide) (by decide) (by decide)

/-- C10: from construction until the first delivery, after every step sequence
the working selection has no duplicates and contains exactly the cards whose
own-selection or opponent-selection flag is set. -/
theorem prompt_selection_invariant (g : CardsDesc) (chooser : Nat) (input : InputProps)
    (s0 : PState) (steps : List PStep)
    (h0 : ∀ c, markedB s0 c = true → c ∈ g.allCards)
    (hf : (runSteps g (mkPrompt chooser input) steps (initState g s0)).delivered = none) :
    (runSteps g (mkPrompt chooser input) steps (initState g s0)).selectedCards.Nodup ∧
    (∀ c, markedB (runSteps g (mkPrompt chooser input) steps (initState g s0)) c = true ↔
      c ∈ (runSteps g (mkPrompt chooser input) steps (initState g s0)).selectedCards) := by
  have hinv := runSteps_inv g (mkPrompt chooser input) steps (initState g s0)
    (initState_inv g (mkPrompt chooser input) s0 h0) hf
  exact ⟨hinv.1, hinv.2.1⟩

/-- Every card marked in `statePre1` is a card of `gameOne`. -/
theorem statePre1_marked_in_gameOne :
    ∀ c, markedB statePre1 c = true → c ∈ gameOne.allCards := by
  intro c h
  by_cases hc : c = 1
  · subst hc
    simp [gameOne]
  · exact absurd h (by simp [markedB, statePre1, hc, flagsOff])

/-- Witness for C10 at a concrete prompt with a pre-selected card and no
steps. -/
theorem prompt_selection_invariant_witness :
    (runSteps gameOne (mkPrompt 0 inpPlain) [] (initState gameOne statePre1)).selectedCards.Nodup :=
  (prompt_selection_invariant gameOne 0 inpPlain statePre1 [] statePre1_marked_in_gameOne rfl).1

/-- C6: markers snapshotted at construction are restored verbatim at exit;
cards without a pre-existing marker end with both markers clear; every game
card's selectable highlight is cleared; and the working selection is empty.
Exit is `complete`, which both the completion and the cancellation paths of
the source call. -/
theorem prompt_restores_markers (g : CardsDesc) (chooser : Nat) (input : InputProps)
    (s0 : PState) (steps : List PStep) (sE : PState)
    (h0 : ∀ c, markedB s0 c = true → c ∈ g.allCards)
    (hf : (runSteps g (mkPrompt chooser input) steps (initState g s0)).delivered = none)
    (hE : sE = complete g (runSteps g (mkPrompt chooser input) steps (initState g s0))) :
    (∀ c, markedB s0 c = true →
      (sE.flags c).selected = (s0.flags c).selected ∧
      (sE.flags c).opponentSelected = (s0.flags c).opponentSelected) ∧
    (∀ c, markedB s0 c = false →
      (sE.flags c).selected = false ∧ (sE.flags c).opponentSelected = false) ∧
    (∀ c, c ∈ g.allCards → (sE.flags c).selectable = false) ∧
    sE.selectedCards = [] := by
  subst hE
  have hinv := runSteps_inv g (mkPrompt chooser input) steps (initState g s0)
    (initState_inv g (mkPrompt chooser input) s0 h0) hf
  obtain ⟨hnd, hmark, hdes⟩ := hinv
  have hprev : (runSteps g (mkPrompt chooser input) steps (initState g s0)).previouslySelectedCards =
      prevOf g s0 := by
    rw [runSteps_prev, initState_prev]
  refine ⟨?_, ?_, ?_, rfl⟩
  · intro c hm
    have hfind : (runSteps g (mkPrompt chooser input) steps
        (initState g s0)).previouslySelectedCards.find? (fun p => decide (p.1 = c)) =
        some (c, (s0.flags c).selected, (s0.flags c).opponentSelected) := by
      rw [hprev]
      exact find_prevOf_marked g s0 c hm (h0 c hm)
    have hfl := clearSelection_flags_char g
      (runSteps g (mkPrompt chooser input) steps (initState g s0)) c
    rw [show (complete g (runSteps g (mkPrompt chooser input) steps (initState g s0))).flags c =
        (clearSelection g (runSteps g (mkPrompt chooser input) steps (initState g s0))).flags c
      from rfl, hfl]
    simp only [hfind]
    exact ⟨trivial, trivial⟩
  · intro c hm
    have hfind : (runSteps g (mkPrompt chooser input) steps
        (initState g s0)).previouslySelectedCards.find? (fun p => decide (p.1 = c)) = none := by
      rw [hprev]
      exact find_prevOf_unmarked g s0 c hm
    have hfl := clearSelection_flags_char g
      (runSteps g (mkPrompt chooser input) steps (initState g s0)) c
    rw [show (complete g (runSteps g (mkPrompt chooser input) steps (initState g s0))).flags c =
        (clearSelection g (runSteps g (mkPrompt chooser input) steps (initState g s0))).flags c
      from rfl, hfl]
    simp only [hfind]
    by_cases hmem : c ∈ (runSteps g (mkPrompt chooser input) steps (initState g s0)).selectedCards
    · by_cases hga : c ∈ g.allCards <;> simp [hmem, hga]
    · have hmkR : markedB (runSteps g (mkPrompt chooser input) steps (initState g s0)) c = false := by
        cases h : markedB (runSteps g (mkPrompt chooser input) steps (initState g s0)) c
        · rfl
        · exact absurd ((hmark c).mp h) hmem
      unfold markedB at hmkR
      have hselR := (Bool.or_eq_false_iff.mp hmkR).1
      have hoppR := (Bool.or_eq_false_iff.mp hmkR).2
      by_cases hga : c ∈ g.allCards <;> simp [hmem, hga, hselR, hoppR]
  · intro c hga
    have hfl := clearSelection_flags_char g
      (runSteps g (mkPrompt chooser input) steps (initState g s0)) c
    rw [show (complete g (runSteps g (mkPrompt chooser input) steps (initState g s0))).flags c =
        (clearSelection g (runSteps g (mkPrompt chooser input) steps (initState g s0))).flags c
      from rfl, hfl]
    cases hf2 : (runSteps g (mkPrompt chooser input) steps
        (initState g s0)).previouslySelectedCards.find? (fun p => decide (p.1 = c)) with
    | some p => simp [hga]
    | none => simp [hga]

/-- Witness for C6: the pre-existing own-selection marker of card 1 is intact
after the prompt completes. -/
theorem prompt_restores_markers_witness :
    ((complete gameOne (runSteps gameOne (mkPrompt 0 inpPlain) []
        (initState gameOne statePre1))).flags 1).selected = (statePre1.flags 1).selected :=
  ((prompt_restores_markers gameOne 0 inpPlain statePre1 []
      (complete gameOne (runSteps gameOne (mkPrompt 0 inpPlain) [] (initState gameOne statePre1)))
      statePre1_marked_in_gameOne rfl rfl).1 1 rfl).1

end SelectPrompt

end Keyteki
